import Mathlib

/-!
Verification of the glTF accessor decoder of this repository
(crates/bevy_gltf/src/loader.rs, with its mesh containers).

The source decodes glTF accessors through the external cgltf C library
(`rgltf::ffi`) into `f32` streams and then regroups those streams into
vertex arrays and a `u32` index buffer.  We embed the control flow and
data flow of `load_rgltf`, `load_gltf` and `GltfLoader::from_bytes`
directly from the source, and model the byte-level accessor decoding
(which lives in the external cgltf library, outside this repository's
sources) from the specification's Component Decoder description.

Floating point: every float value that the claims exercise is exactly
representable in IEEE-754 binary32 (small integers up to 65535 < 2^24,
and exact quotients such as 65535/65535 = 1), so finite float values are
carried as exact rationals; NaN and the infinities are explicit
constructors.  No operation modelled here performs an inexact rounding
on the values at which it is evaluated.
-/

set_option autoImplicit false

namespace GltfDecoder

/-- Model of an `f32` value: NaN, signed infinity, or a finite value carried
as an exact rational.  All finite values used in this development are exactly
representable in binary32, so no rounding is modelled. -/
inductive F32 where
  | nan : F32
  | inf : Bool → F32
  | val : ℚ → F32
deriving DecidableEq

/-- `u32::MAX`. -/
def u32Max : ℕ := 4294967295

/-- Model of Rust's saturating `f32 as u32` cast (loader.rs line 177):
NaN maps to 0, the value is truncated toward zero, and the result is
clamped to `[0, u32::MAX]`. -/
def f32_as_u32 : F32 → ℕ
  | F32.nan => 0
  | F32.inf b => if b then 0 else u32Max
  | F32.val q => if q < 0 then 0 else if (4294967296 : ℚ) ≤ q then u32Max else (⌊q⌋).toNat

/-- The index conversion of loader.rs line 177:
`indices_out.into_iter().map(|i| i as u32).collect()`. -/
def indicesToU32 (s : List F32) : List ℕ :=
  s.map f32_as_u32

/-- glTF component types supported by the decoder (spec section 3). -/
inductive ComponentType where
  | int8 | uint8 | int16 | uint16 | uint32 | float32
deriving DecidableEq

/-- glTF element types; the arity is the number of components per element. -/
inductive ElementType where
  | scalar | vec2 | vec3 | vec4
deriving DecidableEq

/-- Byte width of one component. -/
def width : ComponentType → ℕ
  | ComponentType.int8 => 1
  | ComponentType.uint8 => 1
  | ComponentType.int16 => 2
  | ComponentType.uint16 => 2
  | ComponentType.uint32 => 4
  | ComponentType.float32 => 4

/-- Number of components per element. -/
def arity : ElementType → ℕ
  | ElementType.scalar => 1
  | ElementType.vec2 => 2
  | ElementType.vec3 => 3
  | ElementType.vec4 => 4

/-- The type's maximum value, the divisor of the normalization rule
(127, 255, 32767, 65535, 4294967295). -/
def maxVal : ComponentType → ℚ
  | ComponentType.int8 => 127
  | ComponentType.uint8 => 255
  | ComponentType.int16 => 32767
  | ComponentType.uint16 => 65535
  | ComponentType.uint32 => 4294967295
  | ComponentType.float32 => 1

def isFloat : ComponentType → Bool
  | ComponentType.float32 => true
  | _ => false

def signedType : ComponentType → Bool
  | ComponentType.int8 => true
  | ComponentType.int16 => true
  | _ => false

/-- Smallest raw value of an integer component type. -/
def minRaw : ComponentType → ℤ
  | ComponentType.int8 => -128
  | ComponentType.int16 => -32768
  | _ => 0

/-- Modelled from the spec: the normalization rule of the Component Decoder
(spec 4.3), implemented in the source only through the external cgltf
library's `cgltf_accessor_unpack_floats`, whose code is not part of this
repository.  Per the spec, an integer component with `normalized = true` is
divided by the type's max value, with signed types mapping into `[-1, 1]`
per the standard glTF normalization rule (which clamps the single value
`-2^(b-1)` up to `-1`, as the spec's `Int8 -128 ↦ -1.0` example requires). -/
def normalizeComponent (ct : ComponentType) (raw : ℤ) : ℚ :=
  max ((raw : ℚ) / maxVal ct) (-1)

/-- Modelled from the spec: raw-to-float conversion of one integer component
(spec 4.3 step 3): normalized integers follow `normalizeComponent`,
non-normalized integers widen directly. -/
def componentToFloat (ct : ComponentType) (normalized : Bool) (raw : ℤ) : ℚ :=
  if normalized = true ∧ isFloat ct = false then normalizeComponent ct raw
  else (raw : ℚ)

/-- Exact value of an IEEE-754 binary32 bit pattern (bit decoding involves
no rounding, so it is exactly representable over the rationals). -/
def decodeF32Bits (b : ℕ) : F32 :=
  let s : ℕ := b / 2 ^ 31 % 2
  let e : ℕ := b / 2 ^ 23 % 2 ^ 8
  let m : ℕ := b % 2 ^ 23
  if e = 255 then (if m = 0 then F32.inf (s = 1) else F32.nan)
  else
    let sign : ℚ := if s = 1 then -1 else 1
    if e = 0 then F32.val (sign * (m : ℚ) / 2 ^ 149)
    else F32.val (sign * ((2 ^ 23 + (m : ℚ)) * 2 ^ e) / 2 ^ 150)

/-- Little-endian read of `w` bytes at offset `off`.  The decoder checks the
accessor's byte range before reading, so the `getD` default is never
consulted on the paths on which this is used. -/
def readLE (buf : List ℕ) (off : ℕ) : ℕ → ℕ
  | 0 => 0
  | w + 1 => buf.getD off 0 + 256 * readLE buf (off + 1) w

/-- Two's-complement reinterpretation of a `w`-byte unsigned value. -/
def toSigned (w : ℕ) (u : ℕ) : ℤ :=
  if u < 2 ^ (8 * w - 1) then (u : ℤ) else (u : ℤ) - 2 ^ (8 * w)

/-- Signed or unsigned raw integer value of a component's bits. -/
def rawOfBits (ct : ComponentType) (u : ℕ) : ℤ :=
  if signedType ct then toSigned (width ct) u else (u : ℤ)

/-- Modelled from the spec: decode one component at byte offset `off`
(spec 4.3 step 2 and 3). -/
def decodeComponent (ct : ComponentType) (normalized : Bool) (buf : List ℕ)
    (off : ℕ) : F32 :=
  let u := readLE buf off (width ct)
  match ct with
  | ComponentType.float32 => decodeF32Bits u
  | _ => F32.val (componentToFloat ct normalized (rawOfBits ct u))

/-- Declarative metadata of one accessor (spec section 3).  The sparse
substitution list is omitted: the source never implements sparse accessors
(spec section 9, open question) and no claim depends on them. -/
structure AccessorDescriptor where
  componentType : ComponentType
  elementType : ElementType
  count : ℕ
  byteOffset : ℕ
  byteStride : ℕ
  normalized : Bool
deriving DecidableEq

/-- Effective stride: the explicit stride, or tight packing when 0
(spec 4.2). -/
def strideEffective (d : AccessorDescriptor) : ℕ :=
  if d.byteStride ≠ 0 then d.byteStride
  else arity d.elementType * width d.componentType

/-- The decode error taxonomy of spec section 7. -/
inductive DecodeError where
  | BufferNotFound | BufferReadError | InvalidAccessor | ShapeMismatch
  | IndexOverflow | MissingRequiredAttribute | VertexCountMismatch
deriving DecidableEq

/-- Modelled from the spec: the Component Decoder (spec 4.3), implemented in
the source only through the external cgltf library, whose code is not part
of this repository.  Produces the flat element-major float stream, after
checking that the stride covers one packed element and that the accessor's
byte range lies inside the buffer (spec 4.2 and the section 3 invariant
`count * stride_effective <= buffer length - byte_offset`). -/
def decodeAccessor (d : AccessorDescriptor) (buf : List ℕ) :
    Except DecodeError (List F32) :=
  let A := arity d.elementType
  let cw := width d.componentType
  let se := strideEffective d
  if se < A * cw then Except.error DecodeError.InvalidAccessor
  else if d.count * se > buf.length - d.byteOffset then
    Except.error DecodeError.InvalidAccessor
  else
    Except.ok ((List.range d.count).map (fun i =>
      (List.range A).map (fun c =>
        decodeComponent d.componentType d.normalized buf
          (d.byteOffset + i * se + c * cw)))).flatten

/-- Modelled from the spec: checked float-to-index conversion of one value
(spec 4.4): truncate toward zero, fail with `IndexOverflow` when negative or
beyond `u32::MAX`. -/
def checkedIndex : F32 → Except DecodeError ℕ
  | F32.val q =>
      if q < 0 then Except.error DecodeError.IndexOverflow
      else if (4294967296 : ℚ) ≤ q then Except.error DecodeError.IndexOverflow
      else Except.ok (⌊q⌋).toNat
  | _ => Except.error DecodeError.IndexOverflow

/-- Modelled from the spec: `to_index_array` (spec 4.4), absent from the
source, which instead casts silently at loader.rs line 177. -/
def to_index_array (s : List F32) (count : ℕ) : Except DecodeError (List ℕ) :=
  if s.length ≠ count then Except.error DecodeError.ShapeMismatch
  else s.mapM checkedIndex

/-- Outcome of running a Rust function that may panic (or hit undefined
behaviour through an unchecked raw-pointer access, modelled as a panic). -/
inductive Outcome (α : Type) where
  | ok : α → Outcome α
  | panicked : String → Outcome α
deriving DecidableEq

/-- Payload of one vertex attribute (bevy_render mesh container; its sources
are not under the observed tree, modelled as a plain typed array). -/
inductive AttrData where
  | vec3 : List (F32 × F32 × F32) → AttrData
  | vec2 : List (F32 × F32) → AttrData
deriving DecidableEq

/-- A semantically named vertex array (bevy_render `VertexAttribute`). -/
structure VertexAttribute where
  name : String
  data : AttrData
deriving DecidableEq

def VertexAttribute.position (vs : List (F32 × F32 × F32)) : VertexAttribute :=
  ⟨"position", AttrData.vec3 vs⟩

def VertexAttribute.normal (vs : List (F32 × F32 × F32)) : VertexAttribute :=
  ⟨"normal", AttrData.vec3 vs⟩

def VertexAttribute.uv (vs : List (F32 × F32)) : VertexAttribute :=
  ⟨"uv", AttrData.vec2 vs⟩

/-- Element count of one vertex attribute array. -/
def attrLen (a : VertexAttribute) : ℕ :=
  match a.data with
  | AttrData.vec3 vs => vs.length
  | AttrData.vec2 vs => vs.length

inductive PrimitiveTopology where
  | pointList | lineList | lineStrip | triangleList | triangleStrip
deriving DecidableEq

/-- The bevy_render `Mesh` container filled by the loader. -/
structure Mesh where
  topology : PrimitiveTopology
  attributes : List VertexAttribute
  indices : Option (List ℕ)
deriving DecidableEq

/-! ## Embedding of `load_rgltf` (loader.rs lines 31-188)

`load_rgltf` runs entirely through the external cgltf library: it parses a
file, chases `data.meshes[0].primitives[0]`, and unpacks each accessor into
a float stream with `cgltf_accessor_unpack_floats`.  The cgltf side is
modelled by a `World` that yields, per parsed accessor, its element `count`,
its per-element component count, and the float stream cgltf would decode
(cgltf's contract: the stream holds `count * num_components` floats, and
`cgltf_accessor_unpack_floats(acc, NULL, n)` returns that total). -/

/-- One parsed cgltf accessor: element count, components per element, and
the float stream the cgltf decoder produces for it. -/
structure RAccessor where
  count : ℕ
  numComponents : ℕ
  floats : List F32
deriving DecidableEq

structure RPrimitive where
  attributes : List RAccessor
  indices : Option RAccessor
deriving DecidableEq

structure RMesh where
  primitives : List RPrimitive
deriving DecidableEq

structure CgltfData where
  meshes : List RMesh
deriving DecidableEq

/-- The cgltf library plus filesystem state visible to `load_rgltf`:
what `cgltf_parse_file` yields for a given path, and whether
`cgltf_load_buffers` succeeds. -/
structure World where
  parse : String → Option CgltfData
  buffersOk : Bool

/-- The path literal hard-coded at loader.rs line 33. -/
def monkeyPath : String := "./assets/models/monkey/Monkey.gltf"

def zeroF : F32 := F32.val 0

/-- `cgltf_accessor_unpack_floats(acc, out, n)` writing into a zeroed buffer
of `n` floats: the first `min n total` floats of the accessor's stream, the
rest left zero. -/
def unpackFloats (a : RAccessor) (n : ℕ) : List F32 :=
  a.floats.take n ++ List.replicate (n - a.floats.length) zeroF

def vec3At (t : List F32) (i : ℕ) : F32 × F32 × F32 :=
  (t.getD (3 * i) zeroF, t.getD (3 * i + 1) zeroF, t.getD (3 * i + 2) zeroF)

def vec2At (t : List F32) (i : ℕ) : F32 × F32 :=
  (t.getD (2 * i) zeroF, t.getD (2 * i + 1) zeroF)

/-- The regrouping loop `for i in 0..iters { out[i] = [temp[3i], temp[3i+1],
temp[3i+2]] }` over a zero-initialised `out` of length `outLen` (loader.rs
lines 124-130 and 141-147, where `iters` is the literal `3321`).  `none`
models the index-out-of-bounds panic when the loop overruns `out` or
`temp`. -/
def regroup3 (iters outLen : ℕ) (temp : List F32) :
    Option (List (F32 × F32 × F32)) :=
  if iters ≤ outLen ∧ 3 * iters ≤ temp.length then
    some ((List.range iters).map (vec3At temp) ++
      List.replicate (outLen - iters) (zeroF, zeroF, zeroF))
  else none

/-- The arity-2 regrouping loop (loader.rs lines 158-160). -/
def regroup2 (iters outLen : ℕ) (temp : List F32) :
    Option (List (F32 × F32)) :=
  if iters ≤ outLen ∧ 2 * iters ≤ temp.length then
    some ((List.range iters).map (vec2At temp) ++
      List.replicate (outLen - iters) (zeroF, zeroF))
  else none

/-- Embedding of `load_rgltf` (loader.rs lines 31-188).  Both parameters are
declared `_path`/`_bytes` in the source and never used: the function parses
the hard-coded `monkeyPath`, panics on any parse or buffer failure, walks
`meshes[0].primitives[0]` (raw dereferences; empty arrays or a null indices
pointer are undefined behaviour, modelled as a panic), unpacks each accessor
twice (once with a null pointer for the float total, once into a buffer of
that size), regroups with the literal loop bound `3321`, and converts the
index floats with the saturating `as u32` cast. -/
def load_rgltf (_path : String) (_bytes : List ℕ) (w : World) : Outcome Mesh :=
  match w.parse monkeyPath with
  | none => Outcome.panicked "Failed to load file"
  | some data =>
    if w.buffersOk = false then Outcome.panicked "Failed to load buffers"
    else
      match data.meshes with
      | [] => Outcome.panicked "null meshes dereference"
      | m0 :: _ =>
        match m0.primitives with
        | [] => Outcome.panicked "null primitives dereference"
        | p0 :: _ =>
          match p0.attributes, p0.indices with
          | a0 :: a1 :: a2 :: _, some ia =>
            let pTemp := unpackFloats a0 (a0.count * a0.numComponents)
            let nTemp := unpackFloats a1 (a1.count * a1.numComponents)
            let uTemp := unpackFloats a2 (a2.count * a2.numComponents)
            match regroup3 3321 a0.count pTemp, regroup3 3321 a1.count nTemp,
                regroup2 3321 a2.count uTemp with
            | some ps, some ns, some uvs =>
              let icAdj := ia.count * ia.numComponents
              if ia.count < icAdj then
                Outcome.panicked "index buffer overflow"
              else
                let iFloats := unpackFloats ia icAdj ++
                  List.replicate (ia.count - icAdj) zeroF
                Outcome.ok ⟨PrimitiveTopology.triangleList,
                  [VertexAttribute.position ps, VertexAttribute.normal ns,
                   VertexAttribute.uv uvs],
                  some (indicesToU32 iFloats)⟩
            | _, _, _ => Outcome.panicked "index out of bounds"
          | _, _ => Outcome.panicked "attribute index out of bounds"

/-- Embedding of `GltfLoader::from_bytes` (loader.rs lines 19-23): it calls
`load_rgltf` and wraps the mesh in `Ok`; a panic propagates.  The `Result`
it returns to the caller is therefore `Ok` whenever it returns at all. -/
def GltfLoader.from_bytes (asset_path : String) (bytes : List ℕ) (w : World) :
    Outcome Mesh :=
  load_rgltf asset_path bytes w

/-! ## Embedding of `load_gltf` (loader.rs lines 190-232)

The gltf crate's document/reader layer is external; a parsed document is
modelled by the per-primitive data its readers yield: `read_positions`,
`read_normals`, `read_tex_coords(0).into_f32` and `read_indices.into_u32`. -/

structure GPrimitive where
  positions : Option (List (F32 × F32 × F32))
  normals : Option (List (F32 × F32 × F32))
  texcoords0 : Option (List (F32 × F32))
  indices : Option (List ℕ)
deriving DecidableEq

structure GMesh where
  primitives : List GPrimitive
deriving DecidableEq

structure GNode where
  mesh : Option GMesh
deriving DecidableEq

structure GDocument where
  nodes : List GNode
deriving DecidableEq

/-- The mesh assembly of loader.rs lines 199-225: push position, normal and
uv attributes in that order when present, set the index buffer when
present. -/
def assemblePrimitive (p : GPrimitive) : Mesh :=
  ⟨PrimitiveTopology.triangleList,
   (p.positions.map VertexAttribute.position).toList ++
   (p.normals.map VertexAttribute.normal).toList ++
   (p.texcoords0.map VertexAttribute.uv).toList,
   p.indices⟩

/-- Embedding of `load_gltf` (loader.rs lines 190-232): take the document's
first node; if it has a mesh, take that mesh's first primitive and assemble
it; in every other case fall through to `panic!("No mesh found!")`. -/
def load_gltf (doc : GDocument) : Outcome Mesh :=
  match doc.nodes with
  | [] => Outcome.panicked "No mesh found!"
  | node :: _ =>
    match node.mesh with
    | none => Outcome.panicked "No mesh found!"
    | some m =>
      match m.primitives with
      | [] => Outcome.panicked "No mesh found!"
      | p :: _ => Outcome.ok (assemblePrimitive p)

/-- The selection rule claim C10 describes: the first primitive of the first
mesh attached to the first node that has one. -/
def firstNodeWithMeshPrimitive (doc : GDocument) : Option GPrimitive :=
  match doc.nodes.filterMap GNode.mesh with
  | [] => none
  | m :: _ => m.primitives.head?

instance exceptDecEq {ε α : Type} [DecidableEq ε] [DecidableEq α] :
    DecidableEq (Except ε α) := fun x y =>
  match x, y with
  | Except.ok a, Except.ok b =>
      if h : a = b then isTrue (by rw [h])
      else isFalse (by intro hc; cases hc; exact h rfl)
  | Except.error e, Except.error f =>
      if h : e = f then isTrue (by rw [h])
      else isFalse (by intro hc; cases hc; exact h rfl)
  | Except.ok _, Except.error _ => isFalse (by intro hc; cases hc)
  | Except.error _, Except.ok _ => isFalse (by intro hc; cases hc)

/-! ## Concrete inputs used by the theorems -/

def zeroV3 : F32 × F32 × F32 := (zeroF, zeroF, zeroF)

def zeroV2 : F32 × F32 := (zeroF, zeroF)

/-- A tightly packed `Vec3`/`UInt8` accessor with two elements. -/
def c1Desc : AccessorDescriptor :=
  ⟨ComponentType.uint8, ElementType.vec3, 2, 0, 0, false⟩

def c1Bytes : List ℕ := [0, 1, 2, 3, 4, 5]

def c1Stream : List F32 :=
  [F32.val 0, F32.val 1, F32.val 2, F32.val 3, F32.val 4, F32.val 5]

/-- The cgltf view of the same two-element `Vec3` accessor. -/
def c1Acc3 : RAccessor := ⟨2, 3, c1Stream⟩

def c1Acc2 : RAccessor := ⟨2, 2, [F32.val 0, F32.val 1, F32.val 2, F32.val 3]⟩

def c1AccIdx : RAccessor := ⟨3, 1, [F32.val 0, F32.val 1, F32.val 0]⟩

/-- A world whose Monkey.gltf has vertex count 2 instead of 3321. -/
def c1World : World :=
  ⟨fun _ => some ⟨[⟨[⟨[c1Acc3, c1Acc3, c1Acc2], some c1AccIdx⟩]⟩]⟩, true⟩

/-- A primitive whose POSITION has 10 elements and NORMAL 8. -/
def c2Prim : GPrimitive :=
  ⟨some (List.replicate 10 zeroV3), some (List.replicate 8 zeroV3), none, none⟩

def c2Doc : GDocument := ⟨[⟨some ⟨[c2Prim]⟩⟩]⟩

/-- A primitive with no POSITION accessor but with NORMAL, TEXCOORD_0 and
indices. -/
def c4Prim : GPrimitive :=
  ⟨none, some (List.replicate 2 zeroV3), some (List.replicate 2 zeroV2),
   some [0, 1, 2]⟩

def c4Doc : GDocument := ⟨[⟨some ⟨[c4Prim]⟩⟩]⟩

/-- A primitive with only POSITION: the optional attributes are absent. -/
def c4PrimPosOnly : GPrimitive :=
  ⟨some (List.replicate 3 zeroV3), none, none, none⟩

def c4DocPosOnly : GDocument := ⟨[⟨some ⟨[c4PrimPosOnly]⟩⟩]⟩

/-- A world in which `cgltf_parse_file` fails for every path. -/
def c5World : World := ⟨fun _ => none, true⟩

/-- A Scalar/UInt16 index accessor with raw values 0, 1, 2, 65535
(little-endian bytes). -/
def u16IndexDesc : AccessorDescriptor :=
  ⟨ComponentType.uint16, ElementType.scalar, 4, 0, 0, false⟩

def u16IndexBytes : List ℕ := [0, 0, 1, 0, 2, 0, 255, 255]

/-- First node has no mesh; the second node's mesh holds a primitive. -/
def cexPrim : GPrimitive := ⟨some [zeroV3], none, none, none⟩

def cexDoc : GDocument := ⟨[⟨none⟩, ⟨some ⟨[cexPrim]⟩⟩]⟩

/-! ## Helper lemmas -/

theorem maxVal_pos (ct : ComponentType) : 0 < maxVal ct := by
  cases ct <;> norm_num [maxVal]

theorem flatten_const_length {α β : Type} (l : List α) (A : ℕ) (f : α → List β)
    (hf : ∀ a ∈ l, (f a).length = A) :
    ((l.map f).flatten).length = l.length * A := by
  induction l with
  | nil => simp
  | cons x xs ih =>
    have hx := hf x (List.mem_cons_self x xs)
    have ih2 := ih (fun a ha => hf a (List.mem_cons_of_mem x ha))
    simp only [List.map_cons, List.flatten_cons, List.length_append, hx, ih2,
      List.length_cons]
    ring

theorem decodeAccessor_length (d : AccessorDescriptor) (buf : List ℕ)
    (s : List F32) (h : decodeAccessor d buf = Except.ok s) :
    s.length = d.count * arity d.elementType := by
  unfold decodeAccessor at h
  dsimp only at h
  by_cases h1 : strideEffective d < arity d.elementType * width d.componentType
  · rw [if_pos h1] at h; cases h
  · rw [if_neg h1] at h
    by_cases h2 : d.count * strideEffective d > buf.length - d.byteOffset
    · rw [if_pos h2] at h; cases h
    · rw [if_neg h2] at h
      cases h
      rw [flatten_const_length (List.range d.count) (arity d.elementType) _
        (fun a _ => by simp), List.length_range]

/-! ## Claim theorems -/

/-- C1: the Component Decoder's stream has exactly `count * arity` floats
(proved for the spec-modelled decoder, the cgltf implementation being
outside this repository), but the source's regrouping consumes a
hard-coded 3321 elements rather than the descriptor's `count`: on a
Monkey.gltf whose accessors have count 2, `load_rgltf` overruns its output
arrays and panics instead of consuming 2 elements.  The claim's "no
dependence on any constant other than the descriptor's own count and arity
fields" is violated by the literal 3321. -/
theorem c1_count_arity_vs_hardcoded_3321 :
    (∀ (d : AccessorDescriptor) (buf : List ℕ) (s : List F32),
        decodeAccessor d buf = Except.ok s →
        s.length = d.count * arity d.elementType) ∧
    decodeAccessor c1Desc c1Bytes = Except.ok c1Stream ∧
    load_rgltf "unused" [] c1World = Outcome.panicked "index out of bounds" :=
  ⟨decodeAccessor_length, by decide, by decide⟩

/-- Witness for C1: the two-element Vec3 accessor decodes to a stream of
exactly 2 * 3 floats. -/
theorem c1_count_arity_witness :
    c1Stream.length = c1Desc.count * arity c1Desc.elementType :=
  c1_count_arity_vs_hardcoded_3321.1 c1Desc c1Bytes c1Stream (by decide)

/-- C2: on a primitive whose POSITION has 10 elements and NORMAL 8,
`load_gltf` performs no count comparison at all: it returns the assembled
mesh with attribute arrays of lengths 10 and 8 and no error, so no
`VertexCountMismatch` is surfaced (the error does not exist in the code). -/
theorem c2_mismatched_counts_accepted :
    load_gltf c2Doc = Outcome.ok (assemblePrimitive c2Prim) ∧
    (assemblePrimitive c2Prim).attributes.map attrLen = [10, 8] := by
  decide

/-- C3: the checked `to_index_array` of the spec rejects a negative or
out-of-range value with `IndexOverflow`, but the source's line-177
conversion (`|i| i as u32`) silently saturates: -1.0 becomes 0 and 2^32
becomes `u32::MAX`, with no error. -/
theorem c3_silent_cast_vs_checked_index :
    indicesToU32 [F32.val (-1), F32.val 4294967296] = [0, u32Max] ∧
    to_index_array [F32.val (-1)] 1 = Except.error DecodeError.IndexOverflow ∧
    to_index_array [F32.val 4294967296] 1 =
      Except.error DecodeError.IndexOverflow := by
  decide

/-- C4: on a primitive with no POSITION accessor, `load_gltf` raises no
`MissingRequiredAttribute`: it silently returns a mesh whose attribute list
lacks the position array.  (The optional half of the claim does hold: the
absence of NORMAL, TEXCOORD_0 and indices leaves those fields out without
an error.) -/
theorem c4_missing_position_accepted :
    load_gltf c4Doc = Outcome.ok (assemblePrimitive c4Prim) ∧
    (assemblePrimitive c4Prim).attributes.map VertexAttribute.name =
      ["normal", "uv"] ∧
    (assemblePrimitive c4Prim).indices = some [0, 1, 2] ∧
    load_gltf c4DocPosOnly = Outcome.ok (assemblePrimitive c4PrimPosOnly) ∧
    (assemblePrimitive c4PrimPosOnly).attributes.map VertexAttribute.name =
      ["position"] ∧
    (assemblePrimitive c4PrimPosOnly).indices = none := by
  decide

/-- C5: decode failures are not surfaced as recoverable errors: a failing
`cgltf_parse_file` makes `load_rgltf` (and hence `GltfLoader::from_bytes`)
panic, and a document without a usable primitive makes `load_gltf` panic
with "No mesh found!"; no error value ever reaches the caller. -/
theorem c5_failures_panic_not_error :
    load_rgltf "some/model.gltf" [0, 1, 2] c5World =
      Outcome.panicked "Failed to load file" ∧
    GltfLoader.from_bytes "some/model.gltf" [0, 1, 2] c5World =
      Outcome.panicked "Failed to load file" ∧
    load_gltf ⟨[]⟩ = Outcome.panicked "No mesh found!" := by
  decide

/-- C6: an integer component with `normalized = true` decodes to the raw
value divided by the type's max value, mapped into `[-1, 1]` for signed and
`[0, 1]` for unsigned types per the standard glTF rule, with the claim's
three sample points `UInt16 65535 ↦ 1`, `UInt16 0 ↦ 0`, `Int8 -128 ↦ -1`
(the last forced to -1 by the rule's clamp). -/
theorem c6_normalized_integer_decode :
    (∀ (ct : ComponentType) (raw : ℤ), isFloat ct = false →
        -(maxVal ct) ≤ (raw : ℚ) →
        componentToFloat ct true raw = (raw : ℚ) / maxVal ct) ∧
    (∀ (ct : ComponentType) (raw : ℤ), (raw : ℚ) ≤ maxVal ct →
        -1 ≤ normalizeComponent ct raw ∧ normalizeComponent ct raw ≤ 1) ∧
    (∀ (ct : ComponentType) (raw : ℤ), 0 ≤ raw → (raw : ℚ) ≤ maxVal ct →
        0 ≤ normalizeComponent ct raw ∧ normalizeComponent ct raw ≤ 1) ∧
    componentToFloat ComponentType.uint16 true 65535 = 1 ∧
    componentToFloat ComponentType.uint16 true 0 = 0 ∧
    componentToFloat ComponentType.int8 true (-128) = -1 := by
  have hdivision : ∀ (ct : ComponentType) (raw : ℤ), isFloat ct = false →
      -(maxVal ct) ≤ (raw : ℚ) →
      componentToFloat ct true raw = (raw : ℚ) / maxVal ct := by
    intro ct raw hf h
    have hpos := maxVal_pos ct
    have hdiv : (-1 : ℚ) ≤ (raw : ℚ) / maxVal ct := by
      rw [le_div_iff₀ hpos]
      linarith
    unfold componentToFloat
    rw [if_pos (And.intro rfl hf)]
    unfold normalizeComponent
    exact max_eq_left hdiv
  refine ⟨hdivision, ?_, ?_, ?_, ?_, ?_⟩
  · intro ct raw h
    unfold normalizeComponent
    refine ⟨le_max_right _ _, max_le ?_ (by norm_num)⟩
    rw [div_le_one (maxVal_pos ct)]
    exact h
  · intro ct raw h0 h1
    unfold normalizeComponent
    have hq : (0 : ℚ) ≤ (raw : ℚ) := by exact_mod_cast h0
    refine ⟨?_, max_le ?_ (by norm_num)⟩
    · exact le_trans (div_nonneg hq (le_of_lt (maxVal_pos ct)))
        (le_max_left _ _)
    · rw [div_le_one (maxVal_pos ct)]
      exact h1
  · rw [hdivision ComponentType.uint16 65535 rfl (by norm_num [maxVal])]
    norm_num [maxVal]
  · rw [hdivision ComponentType.uint16 0 rfl (by norm_num [maxVal])]
    norm_num [maxVal]
  · unfold componentToFloat
    have hc : true = true ∧ isFloat ComponentType.int8 = false := ⟨rfl, rfl⟩
    rw [if_pos hc]
    unfold normalizeComponent
    have hle : ((-128 : ℤ) : ℚ) / maxVal ComponentType.int8 ≤ -1 := by
      norm_num [maxVal]
    rw [max_eq_right hle]

/-- Witness for C6 at concrete component types and raw values. -/
theorem c6_normalized_integer_decode_witness :
    componentToFloat ComponentType.uint8 true 255 =
      ((255 : ℤ) : ℚ) / maxVal ComponentType.uint8 ∧
    (-1 ≤ normalizeComponent ComponentType.int16 (-32768) ∧
      normalizeComponent ComponentType.int16 (-32768) ≤ 1) ∧
    (0 ≤ normalizeComponent ComponentType.uint32 7 ∧
      normalizeComponent ComponentType.uint32 7 ≤ 1) :=
  ⟨c6_normalized_integer_decode.1 ComponentType.uint8 255 (by decide)
      (by norm_num [maxVal]),
   c6_normalized_integer_decode.2.1 ComponentType.int16 (-32768)
      (by norm_num [maxVal]),
   c6_normalized_integer_decode.2.2.1 ComponentType.uint32 7 (by norm_num)
      (by norm_num [maxVal])⟩

/-- C7: every UInt16 value survives the f32 intermediate step exactly
(being below 2^24 it is exactly representable, so the widening and the
`as u32` cast are both exact), and the concrete Scalar/UInt16 accessor with
raw values 0, 1, 2, 65535 decodes through the float stream and the line-177
cast to the index array 0, 1, 2, 65535. -/
theorem c7_u16_index_roundtrip :
    (∀ v : ℕ, v ≤ 65535 → f32_as_u32 (F32.val (v : ℚ)) = v) ∧
    decodeAccessor u16IndexDesc u16IndexBytes =
      Except.ok [F32.val 0, F32.val 1, F32.val 2, F32.val 65535] ∧
    indicesToU32 [F32.val 0, F32.val 1, F32.val 2, F32.val 65535] =
      [0, 1, 2, 65535] := by
  refine ⟨?_, by decide, by decide⟩
  intro v hv
  have h0 : ¬ ((v : ℚ) < 0) := not_lt.mpr (by positivity)
  have h1 : ¬ ((4294967296 : ℚ) ≤ (v : ℚ)) := by
    push_neg
    calc (v : ℚ) ≤ 65535 := by exact_mod_cast hv
    _ < 4294967296 := by norm_num
  simp only [f32_as_u32, if_neg h0, if_neg h1]
  simp [Int.floor_natCast]

/-- Witness for C7 at the largest UInt16 value. -/
theorem c7_u16_index_roundtrip_witness :
    f32_as_u32 (F32.val ((65535 : ℕ) : ℚ)) = 65535 :=
  c7_u16_index_roundtrip.1 65535 (by norm_num)

/-- C8: `load_rgltf` and `GltfLoader::from_bytes` ignore both the asset
path and the byte payload; for a fixed library/filesystem state any two
argument pairs give the same mesh, since the function always parses the
hard-coded `monkeyPath`. -/
theorem c8_load_rgltf_ignores_inputs :
    ∀ (w : World) (p₁ p₂ : String) (b₁ b₂ : List ℕ),
      load_rgltf p₁ b₁ w = load_rgltf p₂ b₂ w ∧
      GltfLoader.from_bytes p₁ b₁ w = GltfLoader.from_bytes p₂ b₂ w :=
  fun _ _ _ _ _ => ⟨rfl, rfl⟩

/-- C9: the saturating `f32 as u32` cast of line 177 is total: every input
yields a `u32`, NaN maps to 0, negative values map to 0, values at or
above 2^32 map to `u32::MAX`, and the index conversion keeps the stream
length. -/
theorem c9_f32_as_u32_total_saturating :
    (∀ x : F32, f32_as_u32 x ≤ u32Max) ∧
    f32_as_u32 F32.nan = 0 ∧
    (∀ q : ℚ, q < 0 → f32_as_u32 (F32.val q) = 0) ∧
    (∀ q : ℚ, (4294967296 : ℚ) ≤ q → f32_as_u32 (F32.val q) = u32Max) ∧
    (∀ s : List F32, (indicesToU32 s).length = s.length) := by
  refine ⟨?_, rfl, ?_, ?_, ?_⟩
  · intro x
    cases x with
    | nan => simp [f32_as_u32]
    | inf b => cases b <;> simp [f32_as_u32]
    | val q =>
      by_cases h0 : q < 0
      · simp [f32_as_u32, h0]
      · by_cases h1 : (4294967296 : ℚ) ≤ q
        · simp [f32_as_u32, h0, h1]
        · have hq : q < 4294967296 := not_le.mp h1
          have hfl : (⌊q⌋ : ℚ) ≤ q := Int.floor_le q
          have h2 : ⌊q⌋ < 4294967296 := by
            exact_mod_cast lt_of_le_of_lt hfl hq
          simp only [f32_as_u32, if_neg h0, if_neg h1]
          unfold u32Max
          omega
  · intro q h
    simp [f32_as_u32, h]
  · intro q h
    have h0 : ¬ q < 0 := not_lt.mpr (le_trans (by norm_num) h)
    simp [f32_as_u32, h0, h]
  · intro s
    simp [indicesToU32]

/-- Witness for C9 at a negative and an out-of-range value. -/
theorem c9_f32_as_u32_witness :
    f32_as_u32 (F32.val (-5)) = 0 ∧
    f32_as_u32 (F32.val 4294967296) = u32Max :=
  ⟨c9_f32_as_u32_total_saturating.2.2.1 (-5) (by norm_num),
   c9_f32_as_u32_total_saturating.2.2.2.1 4294967296 (by norm_num)⟩

/-- C10 counterexample: in a document whose first node has no mesh while
its second node's mesh holds a primitive, the claim's selection rule (the
first node that has a mesh) picks that primitive, but `load_gltf` panics
with "No mesh found!" and builds nothing. -/
theorem c10_first_node_counterexample :
    firstNodeWithMeshPrimitive cexDoc = some cexPrim ∧
    load_gltf cexDoc = Outcome.panicked "No mesh found!" ∧
    load_gltf cexDoc ≠ Outcome.ok (assemblePrimitive cexPrim) := by
  decide

/-- C10 amended: `load_gltf` builds its mesh from only the first primitive
of the mesh attached to the document's first node, ignoring every other
node, mesh and primitive; when there is no node, the first node has no
mesh, or its mesh has no primitive, it panics and produces no mesh. -/
theorem c10_first_node_only :
    (∀ (nd : GNode) (r₁ r₂ : List GNode),
        load_gltf ⟨nd :: r₁⟩ = load_gltf ⟨nd :: r₂⟩) ∧
    (∀ (p : GPrimitive) (ps : List GPrimitive) (r : List GNode),
        load_gltf ⟨⟨some ⟨p :: ps⟩⟩ :: r⟩ =
          Outcome.ok (assemblePrimitive p)) ∧
    (∀ (r : List GNode),
        load_gltf ⟨⟨none⟩ :: r⟩ = Outcome.panicked "No mesh found!") ∧
    (∀ (r : List GNode),
        load_gltf ⟨⟨some ⟨[]⟩⟩ :: r⟩ = Outcome.panicked "No mesh found!") ∧
    load_gltf ⟨[]⟩ = Outcome.panicked "No mesh found!" := by
  refine ⟨?_, ?_, ?_, ?_, rfl⟩
  · rintro ⟨mesh⟩ r₁ r₂
    cases mesh with
    | none => rfl
    | some m =>
      cases m with
      | mk prims => cases prims <;> rfl
  · intro p ps r
    rfl
  · intro r
    rfl
  · intro r
    rfl

end GltfDecoder
